import Mathlib

/-!
Shallow embedding of the listing lifecycle and bump engine of the
fleamarket-twa repository, together with proofs about it.

The embedding follows the TypeScript source:
- `src/backend/src/db/schema.ts` (the `listings` and `user_profiles` tables),
- `src/shared/constants.ts` (expiry / cooldown constants),
- `BumpService` (`canBumpListing`, `bumpListing`),
- `ListingService` (`getListings`, `updateListing`, `expireOldListings`,
  `getListingsWithImages`),
- `AdminService` (`archiveListing`, `sendArchiveNotification`),
- the HTTP handlers `getAllListings` / `getUserListings` in
  `src/backend/src/api/listings.ts`.

The database table is modelled as a `List Listing`; a drizzle
`update ... set ... where ...` statement is one atomic map over that list,
`select ... where ... orderBy ... limit ... offset` is filter, sort, drop,
take.  Timestamps are Unix milliseconds (`Nat`); the ISO-string timestamps
the code writes into `updatedAt` are passed in as an opaque `String`.
SQL ORDER BY returns some sorted permutation of the filtered rows; it is
modelled by a computable insertion sort.  JavaScript truthiness tests on
numbers (`if (listing.lastBumpedAt)`) are modelled by an explicit
comparison with `0`.
-/

namespace Fleamarket

/-- The LISTING_STATUS enum from `src/shared/constants.ts`:
ACTIVE, EXPIRED, ARCHIVED. -/
inductive ListingStatus where
  | active
  | expired
  | archived
deriving DecidableEq, Repr

/-- One row of the `listings` table (`src/backend/src/db/schema.ts`).
The `paymentId` / `isPaymentPending` / `starCount` payment-linkage columns
are carried along untouched by every operation modelled here, so they are
folded into `starCount` alone; `content` is the description column. -/
structure Listing where
  id : Nat
  userId : Nat
  username : String
  displayName : String
  title : String
  content : String
  price : Int
  category : String
  status : ListingStatus
  expiresAt : Nat
  lastBumpedAt : Option Nat
  bumpCount : Nat
  starCount : Nat
  createdAt : String
  updatedAt : String
deriving DecidableEq, Repr

/-- One row of the `user_profiles` table, restricted to the columns the
listing queries read (`telegramId`, `isBanned`, display data). -/
structure UserProfile where
  telegramId : Nat
  username : Option String
  displayName : Option String
  isBanned : Nat
deriving DecidableEq, Repr

/-- Constant EXPIRY_DEFAULT_DAYS from `src/shared/constants.ts`. -/
def EXPIRY_DEFAULT_DAYS : Nat := 3

/-- Constant EXPIRY_FREE_BUMP_DAYS from `src/shared/constants.ts`. -/
def EXPIRY_FREE_BUMP_DAYS : Nat := 3

/-- Constant EXPIRY_PAID_BUMP_DAYS from `src/shared/constants.ts`. -/
def EXPIRY_PAID_BUMP_DAYS : Nat := 7

/-- Constant BUMP_COOLDOWN_HOURS from `src/shared/constants.ts`. -/
def BUMP_COOLDOWN_HOURS : Nat := 24

/-- Milliseconds per hour, the literal 1000 * 60 * 60 used in `BumpService`. -/
def msPerHour : Nat := 1000 * 60 * 60

/-- Milliseconds per day, the literal 24 * 60 * 60 * 1000 that `bumpListing`
multiplies into `daysToAdd`. -/
def msPerDay : Nat := 24 * 60 * 60 * 1000

/-- Primary-key lookup
`select().from(listings).where(eq(listings.id, listingId)).limit(1)`:
the first row with the given id. -/
def findListing (store : List Listing) (listingId : Nat) : Option Listing :=
  store.find? (fun l => l.id == listingId)

/-- The typed denial outcomes of `BumpService.canBumpListing`:
listing not found, requester does not own the listing, and the cooldown
denial carrying `hoursUntilNextBump`. -/
inductive BumpDenial where
  | notFound
  | notOwner
  | cooldown (hoursUntilNextBump : ℤ)
deriving DecidableEq, Repr

/-- The value Math.ceil(BUMP_COOLDOWN_HOURS - hoursSinceLastBump) where
hoursSinceLastBump = d / (1000 * 60 * 60) and d = Date.now() - lastBumpedAt,
as computed in `BumpService.canBumpListing`. -/
def hoursUntilNextBump (d : ℤ) : ℤ :=
  Int.ceil ((BUMP_COOLDOWN_HOURS : ℚ) - (d : ℚ) / (msPerHour : ℚ))

/-- Model of `BumpService.canBumpListing`: the listing must exist, belong to the
requester, and be outside the 24h cooldown.  `none` means "can bump".
The JS test `if (listing.lastBumpedAt)` is number truthiness: a stored
`lastBumpedAt` of `0` behaves like an unset one. -/
def canBumpListing (store : List Listing) (listingId userId now : Nat) :
    Option BumpDenial :=
  match findListing store listingId with
  | none => some BumpDenial.notFound
  | some l =>
    if l.userId ≠ userId then
      some BumpDenial.notOwner
    else
      match l.lastBumpedAt with
      | none => none
      | some last =>
        if last = 0 then
          none
        else if (now : ℤ) - (last : ℤ) < (BUMP_COOLDOWN_HOURS * msPerHour : ℕ) then
          some (BumpDenial.cooldown (hoursUntilNextBump ((now : ℤ) - (last : ℤ))))
        else
          none

/-- The field updates of the single update(listings).set(...) statement in
`bumpListing`: absolute expiry reset,
`lastBumpedAt = now`, `bumpCount + 1`, status forced to active,
`updatedAt = nowIso`. -/
def applyBump (l : Listing) (isPaid : Bool) (now : Nat) (nowIso : String) : Listing :=
  { l with
    expiresAt := now + (if isPaid then EXPIRY_PAID_BUMP_DAYS else EXPIRY_FREE_BUMP_DAYS) * msPerDay
    lastBumpedAt := some now
    bumpCount := l.bumpCount + 1
    status := ListingStatus.active
    updatedAt := nowIso }

/-- Input record BumpListingInput of `BumpService`. -/
structure BumpInput where
  listingId : Nat
  userId : Nat
  isPaid : Bool
deriving DecidableEq, Repr

/-- Model of `BumpService.bumpListing`: validate via `canBumpListing`, then perform
one atomic `update ... where eq(listings.id, input.listingId)` and return
the updated row (`.returning()`).  On denial the service throws; modelled
as `Except.error`. -/
def bumpListing (store : List Listing) (input : BumpInput) (now : Nat)
    (nowIso : String) : Except BumpDenial (List Listing × Listing) :=
  match canBumpListing store input.listingId input.userId now with
  | some denial => Except.error denial
  | none =>
    match findListing store input.listingId with
    | none => Except.error BumpDenial.notFound
    | some l =>
      Except.ok
        (store.map fun x =>
          if x.id = input.listingId then applyBump x input.isPaid now nowIso else x,
         applyBump l input.isPaid now nowIso)

/-- The sweep WHERE clause:
`eq(listings.status, ACTIVE)` and `lte(listings.expiresAt, now)`. -/
def shouldExpire (now : Nat) (l : Listing) : Bool :=
  l.status == ListingStatus.active && decide (l.expiresAt ≤ now)

/-- The sweep SET clause on one row: `status = EXPIRED, updatedAt = nowIso`,
applied only where `shouldExpire`. -/
def sweepOne (now : Nat) (nowIso : String) (l : Listing) : Listing :=
  if shouldExpire now l then
    { l with status := ListingStatus.expired, updatedAt := nowIso }
  else
    l

/-- Model of `ListingService.expireOldListings`: one atomic
update setting status = EXPIRED and updatedAt where status = ACTIVE and
expiresAt <= now, returning the affected rows (post-update) next to the
new table state. -/
def expireOldListings (store : List Listing) (now : Nat) (nowIso : String) :
    List Listing × List Listing :=
  (store.map (sweepOne now nowIso),
   (store.filter (shouldExpire now)).map (sweepOne now nowIso))

/-- Sort field: the test input.sortBy === "price", vs date (the default). -/
inductive SortField where
  | price
  | date
deriving DecidableEq, Repr

/-- Sort order: the test input.sortOrder === "asc", vs descending (the default). -/
inductive SortOrder where
  | asc
  | desc
deriving DecidableEq, Repr

/-- Filter record GetListingsInput of `ListingService`.  Optional fields are `Option`;
a JS `undefined` is `none`. -/
structure GetListingsInput where
  limit : Nat
  offset : Nat
  category : Option String := none
  priceMin : Option Int := none
  priceMax : Option Int := none
  search : Option String := none
  sortBy : Option SortField := none
  sortOrder : Option SortOrder := none
  status : Option (List ListingStatus) := none
  userId : Option Nat := none
deriving DecidableEq, Repr

/-- The status condition of `getListings` / `getListingsWithImages`:
`if (input.status && input.status.length > 0)` an OR of equalities over
the given statuses, otherwise `eq(listings.status, ACTIVE)` — the
default-to-active branch. -/
def statusCond (status? : Option (List ListingStatus)) (l : Listing) : Bool :=
  match status? with
  | some ss => if ss.isEmpty then l.status == ListingStatus.active else ss.contains l.status
  | none => l.status == ListingStatus.active

/-- SQLite LIKE with percent wildcards around the term: case-insensitive
substring containment. -/
def likeMatch (term s : String) : Bool :=
  decide (term.toLower.data <:+: s.toLower.data)

/-- The WHERE clause shared by `getListings` and `getListingsWithImages`
(status default, category, price range, owner, search).  The JS guards
`if (input.category)` / `if (input.search)` are string truthiness, so an
empty string behaves like an absent filter. -/
def matchesFilters (input : GetListingsInput) (l : Listing) : Bool :=
  statusCond input.status l &&
  (match input.category with
   | some c => if c.isEmpty then true else l.category == c
   | none => true) &&
  (match input.priceMin with
   | some m => decide (m ≤ l.price)
   | none => true) &&
  (match input.priceMax with
   | some m => decide (l.price ≤ m)
   | none => true) &&
  (match input.userId with
   | some u => l.userId == u
   | none => true) &&
  (match input.search with
   | some t =>
     if t.isEmpty then true
     else likeMatch t l.title || likeMatch t l.content || likeMatch t l.category
   | none => true)

/-- The ORDER BY comparison: by `price` when `sortBy === "price"`,
otherwise by `createdAt`; ascending when `sortOrder === "asc"`, otherwise
descending. -/
def listingLE (input : GetListingsInput) (a b : Listing) : Bool :=
  match input.sortBy with
  | some SortField.price =>
    if input.sortOrder == some SortOrder.asc then decide (a.price ≤ b.price)
    else decide (b.price ≤ a.price)
  | _ =>
    if input.sortOrder == some SortOrder.asc then decide (a.createdAt ≤ b.createdAt)
    else decide (b.createdAt ≤ a.createdAt)

/-- Insert into a sorted list, keeping the `le`-order. -/
def insertLE {α : Type} (le : α → α → Bool) (a : α) : List α → List α
  | [] => [a]
  | b :: bs => if le a b then a :: b :: bs else b :: insertLE le a bs

/-- Insertion sort; the model of SQL ORDER BY (some sorted permutation of
the filtered rows). -/
def sortLE {α : Type} (le : α → α → Bool) : List α → List α
  | [] => []
  | a :: as => insertLE le a (sortLE le as)

/-- Model of `ListingService.getListings`: filter, ORDER BY, then
`limit(input.limit).offset(input.offset)`. -/
def getListings (store : List Listing) (input : GetListingsInput) : List Listing :=
  (((sortLE (listingLE input) (store.filter (matchesFilters input))).drop
      input.offset).take input.limit)

/-- The banned-owner join condition of `getListingsWithImages`:
`leftJoin(userProfiles, eq(listings.userId, userProfiles.telegramId))`
with `where eq(userProfiles.isBanned, 0)`.  Under SQL three-valued logic a
left join without a matching profile row yields NULL for `isBanned`, and
`NULL = 0` is not true, so such rows are filtered out: the row survives
iff a profile row whose telegramId equals the owner id exists and has
`isBanned = 0`. -/
def visibleToBrowse (profiles : List UserProfile) (l : Listing) : Bool :=
  match profiles.find? (fun p => p.telegramId == l.userId) with
  | some p => p.isBanned == 0
  | none => false

/-- Model of `ListingService.getListingsWithImages`, restricted to which listing
rows it returns (the per-row image/profile enrichment that follows leaves
every listing column unchanged and is omitted): the same filters as
`getListings` plus the banned-owner join condition, then ORDER BY, limit,
offset. -/
def getListingsWithImages (store : List Listing) (profiles : List UserProfile)
    (input : GetListingsInput) : List Listing :=
  (((sortLE (listingLE input)
      (store.filter (fun l => visibleToBrowse profiles l && matchesFilters input l))).drop
      input.offset).take input.limit)

/-- The HTTP handler `getAllListings` (`src/backend/src/api/listings.ts`):
sweep first, then public browse via `getListingsWithImages`. -/
def getAllListingsHandler (store : List Listing) (profiles : List UserProfile)
    (filters : GetListingsInput) (now : Nat) (nowIso : String) : List Listing :=
  getListingsWithImages (expireOldListings store now nowIso).1 profiles filters

/-- The HTTP handler `getUserListings`: if the profile of the target user is
flagged banned and the viewer is not an admin, return an empty page;
otherwise sweep and query `getListingsWithImages` with the target as the
`userId` filter. -/
def getUserListingsHandler (store : List Listing) (profiles : List UserProfile)
    (targetUserId : Nat) (viewerIsAdmin : Bool) (filters : GetListingsInput)
    (now : Nat) (nowIso : String) : List Listing :=
  let targetBanned :=
    match profiles.find? (fun p => p.telegramId == targetUserId) with
    | some p => p.isBanned == 1
    | none => false
  if targetBanned && !viewerIsAdmin then
    []
  else
    getListingsWithImages (expireOldListings store now nowIso).1 profiles
      { filters with userId := some targetUserId }

/-- Input record UpdateListingInput of `ListingService`. -/
structure UpdateListingInput where
  title : Option String := none
  description : Option String := none
  price : Option Int := none
  category : Option String := none
deriving DecidableEq, Repr

/-- The SET clause of `updateListing`: always `updatedAt = nowIso`, and
each of title / content / price / category only when the corresponding
input field is not `undefined`. -/
def applyUpdate (input : UpdateListingInput) (nowIso : String) (l : Listing) : Listing :=
  { l with
    updatedAt := nowIso
    title := input.title.getD l.title
    content := input.description.getD l.content
    price := input.price.getD l.price
    category := input.category.getD l.category }

/-- Model of `ListingService.updateListing`: one atomic
`update ... where and(eq(listings.id, id), eq(listings.userId, userId))`,
returning the updated row when one matched. -/
def updateListing (store : List Listing) (id userId : Nat)
    (input : UpdateListingInput) (nowIso : String) :
    List Listing × Option Listing :=
  (store.map fun l =>
     if l.id = id ∧ l.userId = userId then applyUpdate input nowIso l else l,
   (store.find? (fun l => l.id == id && l.userId == userId)).map
     (applyUpdate input nowIso))

/-- Whether the external notification delivery (the Telegram `sendMessage`
call inside `sendArchiveNotification`) succeeds or fails. -/
inductive NotifyOutcome where
  | delivered
  | failed
deriving DecidableEq, Repr

/-- The result shape of `AdminService.archiveListing`. -/
structure ArchiveResult where
  success : Bool
  listing : Option Listing
  error : Option String
deriving DecidableEq, Repr

/-- Model of `AdminService.sendArchiveNotification`: every failure path (missing
bot token, transport error, non-ok response) is caught inside the
function and only logged; it returns the log line, never an error to the
caller. -/
def sendArchiveNotification (botTokenConfigured : Bool)
    (outcome : NotifyOutcome) : Option String :=
  if !botTokenConfigured then
    some "TELEGRAM_BOT_TOKEN not configured"
  else
    match outcome with
    | NotifyOutcome.delivered => none
    | NotifyOutcome.failed => some "Failed to send Telegram notification"

/-- Model of `AdminService.archiveListing`: look the listing up; if absent,
report a not-found error; otherwise one atomic
update setting status = ARCHIVED and updatedAt where eq(listings.id, listingId),
with no ownership or cooldown check, then fire the owner notification,
whose outcome (`sendArchiveNotification` swallows its own failures) does
not influence the returned result. -/
def archiveListing (store : List Listing) (listingId : Nat) (reason : String)
    (nowIso : String) (botTokenConfigured : Bool) (outcome : NotifyOutcome) :
    List Listing × ArchiveResult :=
  match findListing store listingId with
  | none => (store, ⟨false, none, some "Listing not found"⟩)
  | some l =>
    let newStore := store.map fun x =>
      if x.id = listingId then
        { x with status := ListingStatus.archived, updatedAt := nowIso }
      else x
    let archived := { l with status := ListingStatus.archived, updatedAt := nowIso }
    let _log := sendArchiveNotification botTokenConfigured outcome
    (newStore, ⟨true, some archived, none⟩)

/-! ### Helper lemmas -/

lemma mem_insertLE {α : Type} (le : α → α → Bool) (a x : α) (l : List α) :
    x ∈ insertLE le a l ↔ x = a ∨ x ∈ l := by
  induction l with
  | nil => simp [insertLE]
  | cons b bs ih =>
    unfold insertLE
    by_cases h : le a b
    · simp [h]
    · simp [h, ih]
      tauto

lemma mem_sortLE {α : Type} (le : α → α → Bool) (x : α) (l : List α) :
    x ∈ sortLE le l ↔ x ∈ l := by
  induction l with
  | nil => simp [sortLE]
  | cons a as ih => simp [sortLE, mem_insertLE, ih]

lemma mem_getListings_filter {store : List Listing} {input : GetListingsInput}
    {l : Listing} (h : l ∈ getListings store input) :
    matchesFilters input l = true := by
  unfold getListings at h
  have h2 := List.mem_of_mem_drop (List.mem_of_mem_take h)
  rw [mem_sortLE] at h2
  exact List.of_mem_filter h2

lemma mem_getListingsWithImages_filter {store : List Listing}
    {profiles : List UserProfile} {input : GetListingsInput} {l : Listing}
    (h : l ∈ getListingsWithImages store profiles input) :
    visibleToBrowse profiles l = true ∧ matchesFilters input l = true := by
  unfold getListingsWithImages at h
  have h2 := List.mem_of_mem_drop (List.mem_of_mem_take h)
  rw [mem_sortLE] at h2
  simpa [Bool.and_eq_true] using List.of_mem_filter h2

lemma statusCond_default {status? : Option (List ListingStatus)} {l : Listing}
    (hd : status? = none ∨ status? = some [])
    (h : statusCond status? l = true) : l.status = ListingStatus.active := by
  rcases hd with h1 | h1 <;> subst h1 <;>
    simpa [statusCond, beq_iff_eq] using h

lemma matchesFilters_statusCond {input : GetListingsInput} {l : Listing}
    (h : matchesFilters input l = true) : statusCond input.status l = true := by
  unfold matchesFilters at h
  simp only [Bool.and_eq_true] at h
  exact h.1.1.1.1.1

lemma canBumpListing_none_find {store : List Listing} {lid uid now : Nat}
    (h : canBumpListing store lid uid now = none) :
    ∃ l, findListing store lid = some l := by
  unfold canBumpListing at h
  cases hf : findListing store lid with
  | none => rw [hf] at h; exact absurd h (by simp)
  | some l => exact ⟨l, rfl⟩

lemma bumpListing_ok_inv {store : List Listing} {input : BumpInput}
    {now : Nat} {iso : String} {s2 : List Listing} {b : Listing}
    (h : bumpListing store input now iso = Except.ok (s2, b)) :
    ∃ l, findListing store input.listingId = some l ∧
      canBumpListing store input.listingId input.userId now = none ∧
      s2 = store.map (fun x =>
        if x.id = input.listingId then applyBump x input.isPaid now iso else x) ∧
      b = applyBump l input.isPaid now iso := by
  unfold bumpListing at h
  cases hc : canBumpListing store input.listingId input.userId now with
  | some d => rw [hc] at h; exact absurd h (by simp)
  | none =>
    rw [hc] at h
    cases hf : findListing store input.listingId with
    | none => rw [hf] at h; exact absurd h (by simp)
    | some l =>
      rw [hf] at h
      simp only [Except.ok.injEq, Prod.mk.injEq] at h
      exact ⟨l, rfl, rfl, h.1.symm, h.2.symm⟩

lemma bumpListing_isOk_iff {store : List Listing} {input : BumpInput}
    {now : Nat} {iso : String} :
    (bumpListing store input now iso).isOk = true ↔
      canBumpListing store input.listingId input.userId now = none := by
  unfold bumpListing
  cases hc : canBumpListing store input.listingId input.userId now with
  | some d => simp [Except.isOk, Except.toBool]
  | none =>
    obtain ⟨l, hf⟩ := canBumpListing_none_find hc
    rw [hf]
    simp [Except.isOk, Except.toBool]

lemma canBumpListing_none_iff {store : List Listing} {lid uid now : Nat}
    (h24 : BUMP_COOLDOWN_HOURS * msPerHour ≤ now) :
    canBumpListing store lid uid now = none ↔
      ∃ l, findListing store lid = some l ∧ l.userId = uid ∧
        (l.lastBumpedAt = none ∨
          ∃ last, l.lastBumpedAt = some last ∧
            (BUMP_COOLDOWN_HOURS * msPerHour : ℤ) ≤ (now : ℤ) - (last : ℤ)) := by
  have h24z : ((BUMP_COOLDOWN_HOURS * msPerHour : ℕ) : ℤ) ≤ (now : ℤ) := by
    exact_mod_cast h24
  unfold canBumpListing
  cases hf : findListing store lid with
  | none => simp
  | some l =>
    simp only [Option.some.injEq, exists_eq_left']
    by_cases ho : l.userId = uid
    · subst ho
      rw [if_neg (by simp)]
      simp only [eq_self_iff_true, true_and]
      cases hl : l.lastBumpedAt with
      | none => simp
      | some last =>
        simp only [Option.some.injEq, exists_eq_left', reduceCtorEq, false_or]
        by_cases hz : last = 0
        · subst hz
          rw [if_pos rfl]
          constructor
          · intro _
            push_cast
            push_cast at h24z
            omega
          · intro _; rfl
        · rw [if_neg hz]
          by_cases hcool : (now : ℤ) - (last : ℤ) < ((BUMP_COOLDOWN_HOURS * msPerHour : ℕ) : ℤ)
          · rw [if_pos hcool]
            constructor
            · intro habs; exact absurd habs (by simp)
            · intro hge
              push_cast at hge hcool
              omega
          · rw [if_neg hcool]
            constructor
            · intro _
              push_cast at hcool ⊢
              omega
            · intro _; rfl
    · rw [if_pos ho]
      constructor
      · intro habs; exact absurd habs (by simp)
      · rintro ⟨ho2, _⟩
        exact absurd ho2 ho

lemma shouldExpire_sweepOne (now : Nat) (iso : String) (l : Listing) :
    shouldExpire now (sweepOne now iso l) = false := by
  unfold sweepOne
  by_cases h : shouldExpire now l
  · simp only [if_pos h]
    simp [shouldExpire]
  · simp [h]

lemma sweepOne_of_not_shouldExpire (now : Nat) (iso : String) {l : Listing}
    (h : shouldExpire now l = false) : sweepOne now iso l = l := by
  unfold sweepOne
  simp [h]

lemma canBumpListing_cooldown {store : List Listing} {lid uid now : Nat}
    {l : Listing} {last : Nat} (hf : findListing store lid = some l)
    (ho : l.userId = uid) (hl : l.lastBumpedAt = some last) (hz : last ≠ 0)
    (hcool : (now : ℤ) - (last : ℤ) < ((BUMP_COOLDOWN_HOURS * msPerHour : ℕ) : ℤ)) :
    canBumpListing store lid uid now =
      some (BumpDenial.cooldown (hoursUntilNextBump ((now : ℤ) - (last : ℤ)))) := by
  unfold canBumpListing
  rw [hf]
  simp only [ho, ne_eq, not_true_eq_false, if_false, hl, if_neg hz, if_pos hcool]

lemma bumpListing_error {store : List Listing} {input : BumpInput}
    {now : Nat} {iso : String} {d : BumpDenial}
    (h : canBumpListing store input.listingId input.userId now = some d) :
    bumpListing store input now iso = Except.error d := by
  unfold bumpListing
  rw [h]

/-! ### Concrete fixtures for counterexamples and witnesses -/

/-- A concrete fresh active listing: owner 7, expiry seven days after
epoch, never bumped. -/
def sampleListing : Listing :=
  { id := 1, userId := 7, username := "u7", displayName := "Uli",
    title := "bike", content := "red bike", price := 500, category := "sports",
    status := ListingStatus.active, expiresAt := 604800000,
    lastBumpedAt := none, bumpCount := 0, starCount := 0,
    createdAt := "2024-01-01", updatedAt := "2024-01-01" }

/-- A concrete archived listing whose expiry lies in the past. -/
def archivedListing : Listing :=
  { sampleListing with
    id := 2
    userId := 9
    status := ListingStatus.archived
    expiresAt := 500
    bumpCount := 3 }

/-- A concrete expired listing whose expiry lies in the past. -/
def expiredListing : Listing :=
  { sampleListing with
    id := 4
    status := ListingStatus.expired
    expiresAt := 500 }

/-- A concrete active listing last bumped at epoch + 1 day. -/
def bumpedListing : Listing :=
  { sampleListing with id := 5, lastBumpedAt := some 86400000 }

/-! ### Claim theorems -/

/-- Claim C1 (the code contradicts the claim): with the concrete archived
listing (owner 9, expiry in the past), `sweepExpired` indeed leaves the
listing untouched and transitions nothing, but `bump(2, 9, paid := false)`
does not fail with any archived error: `canBumpListing` never inspects
`status`, so the bump succeeds and force-writes `status = active`,
un-archiving the listing. -/
theorem archived_not_terminal_under_bump :
    expireOldListings [archivedListing] 1000 "s1" = ([archivedListing], []) ∧
    bumpListing [archivedListing] ⟨2, 9, false⟩ 1000 "s2" =
      Except.ok ([applyBump archivedListing false 1000 "s2"],
        applyBump archivedListing false 1000 "s2") ∧
    (applyBump archivedListing false 1000 "s2").status = ListingStatus.active ∧
    archivedListing.status = ListingStatus.archived ∧
    archivedListing.expiresAt ≤ 1000 :=
  ⟨rfl, rfl, rfl, rfl, by decide⟩

/-- Claim C2: for every successful `bump(listingId, userId, paid)` at time
`now`, the returned listing has `expiresAt = now + 7 days` when paid and
`now + 3 days` when free (irrespective of the prior value),
`lastBumpedAt = now`, `bumpCount` incremented by one, `status = active`;
and the new store is the old store with exactly that one row rewritten by
the same single update (`applyBump`), so no partial write exists. -/
theorem bump_absolute_reset (store : List Listing) (input : BumpInput)
    (now : Nat) (iso : String) (s2 : List Listing) (b : Listing)
    (h : bumpListing store input now iso = Except.ok (s2, b)) :
    ∃ l, findListing store input.listingId = some l ∧
      b.expiresAt = now + (if input.isPaid then EXPIRY_PAID_BUMP_DAYS
        else EXPIRY_FREE_BUMP_DAYS) * msPerDay ∧
      b.lastBumpedAt = some now ∧
      b.bumpCount = l.bumpCount + 1 ∧
      b.status = ListingStatus.active ∧
      b = applyBump l input.isPaid now iso ∧
      s2 = store.map (fun x =>
        if x.id = input.listingId then applyBump x input.isPaid now iso else x) := by
  obtain ⟨l, hf, hc, hs, hb⟩ := bumpListing_ok_inv h
  subst hb
  exact ⟨l, hf, rfl, rfl, rfl, rfl, rfl, hs⟩

/-- Closed witness for `bump_absolute_reset`: a concrete paid bump at
`now = 86400000` yields expiry `86400000 + 7 * 86400000 = 691200000`. -/
theorem bump_absolute_reset_witness :
    (applyBump sampleListing true 86400000 "w2").expiresAt = 691200000 := by
  obtain ⟨l, hf, he, -⟩ := bump_absolute_reset [sampleListing] ⟨1, 7, true⟩
    86400000 "w2" [applyBump sampleListing true 86400000 "w2"]
    (applyBump sampleListing true 86400000 "w2") rfl
  rw [he]
  decide

/-- Claim C3: under a clock at least 24h past the epoch (so that the
JavaScript falsy value `lastBumpedAt = 0` coincides with an elapsed
cooldown), a bump succeeds iff the listing exists, the requester is its
owner, and either `lastBumpedAt` is unset or at least 24 hours have
elapsed; and an attempt inside the cooldown fails with the cooldown
denial carrying `hoursUntilNextBump = ceil(24 - hoursSinceLastBump)`. -/
theorem bump_cooldown_enforcement (store : List Listing) (input : BumpInput)
    (now : Nat) (iso : String) (h24 : BUMP_COOLDOWN_HOURS * msPerHour ≤ now) :
    ((bumpListing store input now iso).isOk = true ↔
      ∃ l, findListing store input.listingId = some l ∧
        l.userId = input.userId ∧
        (l.lastBumpedAt = none ∨
          ∃ last, l.lastBumpedAt = some last ∧
            (BUMP_COOLDOWN_HOURS * msPerHour : ℤ) ≤ (now : ℤ) - (last : ℤ))) ∧
    (∀ l last, findListing store input.listingId = some l →
      l.userId = input.userId → l.lastBumpedAt = some last →
      (now : ℤ) - (last : ℤ) < (BUMP_COOLDOWN_HOURS * msPerHour : ℤ) →
      bumpListing store input now iso =
        Except.error
          (BumpDenial.cooldown (hoursUntilNextBump ((now : ℤ) - (last : ℤ))))) := by
  constructor
  · rw [bumpListing_isOk_iff, canBumpListing_none_iff h24]
  · intro l last hf ho hl hcool
    have h24z : ((BUMP_COOLDOWN_HOURS * msPerHour : ℕ) : ℤ) ≤ (now : ℤ) := by
      exact_mod_cast h24
    have hz : last ≠ 0 := by
      intro h0
      subst h0
      push_cast at hcool
      omega
    exact bumpListing_error (canBumpListing_cooldown hf ho hl hz
      (by exact_mod_cast hcool))

/-- Closed witness for `bump_cooldown_enforcement`: the owner bumped the
concrete listing at `t = 86400000`; an attempt 23 hours later fails with
`hoursUntilNextBump = 1`, and an attempt exactly 24 hours later
succeeds. -/
theorem bump_cooldown_enforcement_witness :
    bumpListing [bumpedListing] ⟨5, 7, false⟩ 169200000 "w3" =
      Except.error (BumpDenial.cooldown 1) ∧
    (bumpListing [bumpedListing] ⟨5, 7, false⟩ 172800000 "w3").isOk = true := by
  constructor
  · have h := (bump_cooldown_enforcement [bumpedListing] ⟨5, 7, false⟩
      169200000 "w3" (by decide)).2 bumpedListing 86400000 rfl rfl rfl (by decide)
    rw [h]
    norm_num [hoursUntilNextBump, msPerHour, BUMP_COOLDOWN_HOURS]
  · exact (bump_cooldown_enforcement [bumpedListing] ⟨5, 7, false⟩
      172800000 "w3" (by decide)).1.mpr
      ⟨bumpedListing, rfl, rfl, Or.inr ⟨86400000, rfl, by decide⟩⟩

/-- Claim C5 counterexample: the concrete fresh listing still has six days
of life left (`expiresAt = 604800000`) when its owner free-bumps it at
`now = 86400000`; the bump succeeds and the new expiry `345600000` is
strictly smaller than the old one, refuting "expiresAt never decreases
across any successful bump". -/
theorem bump_monotonic_expiry_cex :
    bumpListing [sampleListing] ⟨1, 7, false⟩ 86400000 "w5" =
      Except.ok ([applyBump sampleListing false 86400000 "w5"],
        applyBump sampleListing false 86400000 "w5") ∧
    (applyBump sampleListing false 86400000 "w5").expiresAt = 345600000 ∧
    sampleListing.expiresAt = 604800000 ∧
    (345600000 : ℕ) < 604800000 :=
  ⟨rfl, by decide, rfl, by decide⟩

/-- Claim C5 as amended: the new expiry after a successful bump is exactly
`now + extensionDays(paid)`, which always exceeds `now`; hence it
strictly exceeds the prior expiry whenever the prior expiry was at most
`now` (in particular on any already-expired listing), but it may decrease
when more than `extensionDays(paid)` of life remained. -/
theorem bump_expiry_reset_law (store : List Listing) (input : BumpInput)
    (now : Nat) (iso : String) (s2 : List Listing) (b : Listing)
    (h : bumpListing store input now iso = Except.ok (s2, b)) :
    b.expiresAt = now + (if input.isPaid then EXPIRY_PAID_BUMP_DAYS
      else EXPIRY_FREE_BUMP_DAYS) * msPerDay ∧
    now < b.expiresAt ∧
    (∀ l, findListing store input.listingId = some l → l.expiresAt ≤ now →
      l.expiresAt < b.expiresAt) := by
  obtain ⟨l, hf, hc, hs, hb⟩ := bumpListing_ok_inv h
  subst hb
  have hpos : 0 < (if input.isPaid then EXPIRY_PAID_BUMP_DAYS
      else EXPIRY_FREE_BUMP_DAYS) * msPerDay := by
    cases input.isPaid <;> decide
  have hlt : now < (applyBump l input.isPaid now iso).expiresAt := by
    show now < now + _
    omega
  refine ⟨rfl, hlt, ?_⟩
  intro l2 hf2 hle
  omega

/-- Closed witness for `bump_expiry_reset_law`: a free bump on the
concrete expired listing (expiry 500, bump at `now = 86400000`) strictly
raises the expiry. -/
theorem bump_expiry_reset_law_witness :
    expiredListing.expiresAt <
      (applyBump expiredListing false 86400000 "w5b").expiresAt :=
  (bump_expiry_reset_law [expiredListing] ⟨4, 7, false⟩ 86400000 "w5b"
    [applyBump expiredListing false 86400000 "w5b"]
    (applyBump expiredListing false 86400000 "w5b") rfl).2.2
    expiredListing rfl (by decide)

/-- A concrete active listing whose expiry lies just in the past. -/
def staleListing : Listing :=
  { sampleListing with
    id := 6
    expiresAt := 700 }

/-- A concrete non-banned profile for owner 7. -/
def okProfile : UserProfile :=
  { telegramId := 7, username := some "u7", displayName := some "Uli",
    isBanned := 0 }

/-- A concrete banned profile for owner 5. -/
def bannedProfile : UserProfile :=
  { telegramId := 5, username := some "b5", displayName := some "Ben",
    isBanned := 1 }

/-- A concrete active listing owned by the banned user 5. -/
def bannedListing : Listing :=
  { sampleListing with
    id := 3
    userId := 5 }

/-- A browse query with no filters (`limit = 50`, `offset = 0`). -/
def defaultQuery : GetListingsInput :=
  { limit := 50, offset := 0 }

/-- Claim C4: one sweep at `now` transitions exactly the listings with
`status = active` and `expiresAt <= now` to `expired` (stamping
`updatedAt` and touching no other field), leaves every other listing
unchanged, and a second sweep right after (with no intervening writes)
returns the swept store unchanged and transitions zero listings. -/
theorem sweep_correct_idempotent (store : List Listing) (now : Nat)
    (iso iso2 : String) :
    (expireOldListings store now iso).1.length = store.length ∧
    (∀ i (h : i < store.length)
        (h2 : i < (expireOldListings store now iso).1.length),
      (((store.get ⟨i, h⟩).status = ListingStatus.active ∧
          (store.get ⟨i, h⟩).expiresAt ≤ now) →
        ((expireOldListings store now iso).1.get ⟨i, h2⟩).status =
            ListingStatus.expired ∧
        ((expireOldListings store now iso).1.get ⟨i, h2⟩).updatedAt = iso ∧
        ((expireOldListings store now iso).1.get ⟨i, h2⟩).id =
            (store.get ⟨i, h⟩).id ∧
        ((expireOldListings store now iso).1.get ⟨i, h2⟩).userId =
            (store.get ⟨i, h⟩).userId ∧
        ((expireOldListings store now iso).1.get ⟨i, h2⟩).title =
            (store.get ⟨i, h⟩).title ∧
        ((expireOldListings store now iso).1.get ⟨i, h2⟩).content =
            (store.get ⟨i, h⟩).content ∧
        ((expireOldListings store now iso).1.get ⟨i, h2⟩).price =
            (store.get ⟨i, h⟩).price ∧
        ((expireOldListings store now iso).1.get ⟨i, h2⟩).category =
            (store.get ⟨i, h⟩).category ∧
        ((expireOldListings store now iso).1.get ⟨i, h2⟩).expiresAt =
            (store.get ⟨i, h⟩).expiresAt ∧
        ((expireOldListings store now iso).1.get ⟨i, h2⟩).lastBumpedAt =
            (store.get ⟨i, h⟩).lastBumpedAt ∧
        ((expireOldListings store now iso).1.get ⟨i, h2⟩).bumpCount =
            (store.get ⟨i, h⟩).bumpCount ∧
        ((expireOldListings store now iso).1.get ⟨i, h2⟩).createdAt =
            (store.get ⟨i, h⟩).createdAt) ∧
      (¬((store.get ⟨i, h⟩).status = ListingStatus.active ∧
          (store.get ⟨i, h⟩).expiresAt ≤ now) →
        (expireOldListings store now iso).1.get ⟨i, h2⟩ = store.get ⟨i, h⟩)) ∧
    expireOldListings (expireOldListings store now iso).1 now iso2 =
      ((expireOldListings store now iso).1, []) := by
  refine ⟨List.length_map _ _, ?_, ?_⟩
  · intro i h h2
    have hg : (expireOldListings store now iso).1.get ⟨i, h2⟩ =
        sweepOne now iso (store.get ⟨i, h⟩) := by
      show (store.map (sweepOne now iso)).get _ = _
      simp [List.get_eq_getElem, List.getElem_map]
    constructor
    · intro hcond
      have hse : shouldExpire now (store.get ⟨i, h⟩) = true := by
        simp only [shouldExpire, Bool.and_eq_true, beq_iff_eq, decide_eq_true_eq]
        exact hcond
      rw [hg]
      unfold sweepOne
      rw [if_pos hse]
      exact ⟨rfl, rfl, rfl, rfl, rfl, rfl, rfl, rfl, rfl, rfl, rfl, rfl⟩
    · intro hcond
      have hse : shouldExpire now (store.get ⟨i, h⟩) = false := by
        by_contra hne
        have := eq_true_of_ne_false hne
        simp [shouldExpire, beq_iff_eq, Bool.and_eq_true] at this
        exact hcond this
      rw [hg, sweepOne_of_not_shouldExpire now iso hse]
  · unfold expireOldListings
    have hmap : (store.map (sweepOne now iso)).map (sweepOne now iso2) =
        store.map (sweepOne now iso) := by
      rw [List.map_map]
      congr 1
      funext l
      exact sweepOne_of_not_shouldExpire now iso2 (shouldExpire_sweepOne now iso l)
    have hfil : (store.map (sweepOne now iso)).filter (shouldExpire now) = [] := by
      rw [List.filter_eq_nil_iff]
      intro a ha
      obtain ⟨l, -, hl⟩ := List.mem_map.mp ha
      subst hl
      simp [shouldExpire_sweepOne]
    rw [hmap, hfil]
    rfl

/-- Closed witness for `sweep_correct_idempotent`: sweeping the concrete
two-listing store at `now = 1000` expires the stale listing, leaves the
fresh one unchanged, and a second sweep is a no-op transitioning zero
listings. -/
theorem sweep_correct_idempotent_witness :
    ((expireOldListings [staleListing, sampleListing] 1000 "i1").1.get
        ⟨0, by decide⟩).status = ListingStatus.expired ∧
    (expireOldListings [staleListing, sampleListing] 1000 "i1").1.get
        ⟨1, by decide⟩ = sampleListing ∧
    expireOldListings
        (expireOldListings [staleListing, sampleListing] 1000 "i1").1 1000 "i2" =
      ((expireOldListings [staleListing, sampleListing] 1000 "i1").1, []) := by
  have h := sweep_correct_idempotent [staleListing, sampleListing] 1000 "i1" "i2"
  refine ⟨((h.2.1 0 (by decide) (by decide)).1 ⟨rfl, by decide⟩).1, ?_, h.2.2⟩
  exact (h.2.1 1 (by decide) (by decide)).2 (by decide)

/-- Claim C6: with the status filter omitted or empty, every listing
returned by `getListings` or by `getListingsWithImages` has
`status = active`; expired or archived listings never appear in an
unfiltered browse result. -/
theorem default_visibility (store : List Listing) (profiles : List UserProfile)
    (input : GetListingsInput)
    (hd : input.status = none ∨ input.status = some []) :
    (∀ l, l ∈ getListings store input → l.status = ListingStatus.active) ∧
    (∀ l, l ∈ getListingsWithImages store profiles input →
      l.status = ListingStatus.active) := by
  constructor
  · intro l hl
    exact statusCond_default hd (matchesFilters_statusCond (mem_getListings_filter hl))
  · intro l hl
    exact statusCond_default hd
      (matchesFilters_statusCond (mem_getListingsWithImages_filter hl).2)

/-- Closed witness for `default_visibility`: the concrete unfiltered
query over a store holding an expired and an active listing returns
the active one, and the theorem applies to it. -/
theorem default_visibility_witness :
    sampleListing ∈ getListings [expiredListing, sampleListing] defaultQuery ∧
    sampleListing.status = ListingStatus.active := by
  have hmem : sampleListing ∈ getListings [expiredListing, sampleListing] defaultQuery := by
    decide
  exact ⟨hmem, (default_visibility [expiredListing, sampleListing] [okProfile]
    defaultQuery (Or.inl rfl)).1 sampleListing hmem⟩

/-- Claim C7 (the code contradicts the claim): listings of banned owners are
excluded from browse results for every requester, including
administrators.  With the concrete active listing owned by banned user 5,
the public-browse handler returns an empty page, and the per-user handler
returns an empty page both for a non-admin viewer and for an admin viewer
— the admin branch only skips the early empty-response shortcut, while
the join condition `eq(userProfiles.isBanned, 0)` inside
`getListingsWithImages` still filters the listing out, so the
administrator does not see it. -/
theorem admin_cannot_see_banned_owner_listings :
    getAllListingsHandler [bannedListing] [bannedProfile] defaultQuery 1000 "n" = [] ∧
    getUserListingsHandler [bannedListing] [bannedProfile] 5 true defaultQuery 1000 "n" = [] ∧
    getUserListingsHandler [bannedListing] [bannedProfile] 5 false defaultQuery 1000 "n" = [] ∧
    bannedListing.status = ListingStatus.active ∧
    bannedListing.userId = bannedProfile.telegramId ∧
    bannedProfile.isBanned = 1 := by
  refine ⟨by decide, by decide, by decide, rfl, rfl, rfl⟩

/-- Claim C8: archiving an existing listing succeeds unconditionally — no
ownership, status or cooldown check — setting `status = archived` and
`updatedAt` on exactly that row, and the reported result (success, the
archived listing, no error) is the same whether the owner notification is
delivered, fails, or the bot token is missing. -/
theorem archive_unconditional (store : List Listing) (listingId : Nat)
    (reason iso : String) (tok : Bool) (o : NotifyOutcome) (l : Listing)
    (h : findListing store listingId = some l) :
    (archiveListing store listingId reason iso tok o).2.success = true ∧
    (archiveListing store listingId reason iso tok o).2.listing =
      some { l with status := ListingStatus.archived, updatedAt := iso } ∧
    (archiveListing store listingId reason iso tok o).2.error = none ∧
    (archiveListing store listingId reason iso tok o).1 =
      store.map (fun x => if x.id = listingId then
        { x with status := ListingStatus.archived, updatedAt := iso } else x) ∧
    (∀ tok2 o2, archiveListing store listingId reason iso tok2 o2 =
      archiveListing store listingId reason iso tok o) := by
  simp [archiveListing, h]

/-- Closed witness for `archive_unconditional`: archiving the concrete
active listing of user 7 reports success even with no bot token and a
failed notification delivery. -/
theorem archive_unconditional_witness :
    (archiveListing [sampleListing] 1 "prohibited item" "i8" false
      NotifyOutcome.failed).2.success = true :=
  (archive_unconditional [sampleListing] 1 "prohibited item" "i8" false
    NotifyOutcome.failed sampleListing rfl).1

/-- Claim C9: every listing returned by `getListingsWithImages` has an
owner profile row with `isBanned = 0`; in particular a listing whose
owner has no profile row at all never appears in any browse result,
whatever its status or the supplied filters. -/
theorem browse_requires_unbanned_profile (store : List Listing)
    (profiles : List UserProfile) (input : GetListingsInput) :
    ∀ l, l ∈ getListingsWithImages store profiles input →
      ∃ p, p ∈ profiles ∧ p.telegramId = l.userId ∧ p.isBanned = 0 := by
  intro l hl
  have hv := (mem_getListingsWithImages_filter hl).1
  unfold visibleToBrowse at hv
  cases hp : profiles.find? (fun p => p.telegramId == l.userId) with
  | none => rw [hp] at hv; exact absurd hv (by simp)
  | some p =>
    rw [hp] at hv
    refine ⟨p, List.mem_of_find?_eq_some hp, ?_, ?_⟩
    · simpa [beq_iff_eq] using List.find?_some hp
    · simpa [beq_iff_eq] using hv

/-- Closed witness for `browse_requires_unbanned_profile`: the concrete
active listing of user 7 appears in the browse result, and the theorem
produces its non-banned profile row. -/
theorem browse_requires_unbanned_profile_witness :
    ∃ p, p ∈ [okProfile] ∧ p.telegramId = sampleListing.userId ∧
      p.isBanned = 0 :=
  browse_requires_unbanned_profile [sampleListing] [okProfile] defaultQuery
    sampleListing (by decide)

/-- Claim C10: `updateListing` can change only title, content, price,
category and `updatedAt`: for every row, `id`, `userId`, `status`,
`expiresAt`, `lastBumpedAt`, `bumpCount`, `starCount`, `username`,
`displayName` and `createdAt` are exactly preserved, and a row whose
`userId` differs from the caller (or whose `id` differs from the target)
is left entirely unchanged. -/
theorem update_frame_property (store : List Listing) (id userId : Nat)
    (input : UpdateListingInput) (iso : String) :
    (updateListing store id userId input iso).1.length = store.length ∧
    (∀ i (h : i < store.length)
        (h2 : i < (updateListing store id userId input iso).1.length),
      ((updateListing store id userId input iso).1.get ⟨i, h2⟩).id =
          (store.get ⟨i, h⟩).id ∧
      ((updateListing store id userId input iso).1.get ⟨i, h2⟩).userId =
          (store.get ⟨i, h⟩).userId ∧
      ((updateListing store id userId input iso).1.get ⟨i, h2⟩).status =
          (store.get ⟨i, h⟩).status ∧
      ((updateListing store id userId input iso).1.get ⟨i, h2⟩).expiresAt =
          (store.get ⟨i, h⟩).expiresAt ∧
      ((updateListing store id userId input iso).1.get ⟨i, h2⟩).lastBumpedAt =
          (store.get ⟨i, h⟩).lastBumpedAt ∧
      ((updateListing store id userId input iso).1.get ⟨i, h2⟩).bumpCount =
          (store.get ⟨i, h⟩).bumpCount ∧
      ((updateListing store id userId input iso).1.get ⟨i, h2⟩).starCount =
          (store.get ⟨i, h⟩).starCount ∧
      ((updateListing store id userId input iso).1.get ⟨i, h2⟩).username =
          (store.get ⟨i, h⟩).username ∧
      ((updateListing store id userId input iso).1.get ⟨i, h2⟩).displayName =
          (store.get ⟨i, h⟩).displayName ∧
      ((updateListing store id userId input iso).1.get ⟨i, h2⟩).createdAt =
          (store.get ⟨i, h⟩).createdAt ∧
      ((store.get ⟨i, h⟩).userId ≠ userId →
        (updateListing store id userId input iso).1.get ⟨i, h2⟩ =
          store.get ⟨i, h⟩) ∧
      ((store.get ⟨i, h⟩).id ≠ id →
        (updateListing store id userId input iso).1.get ⟨i, h2⟩ =
          store.get ⟨i, h⟩)) := by
  refine ⟨List.length_map _ _, ?_⟩
  intro i h h2
  have hg : (updateListing store id userId input iso).1.get ⟨i, h2⟩ =
      (if (store.get ⟨i, h⟩).id = id ∧ (store.get ⟨i, h⟩).userId = userId
       then applyUpdate input iso (store.get ⟨i, h⟩) else store.get ⟨i, h⟩) := by
    show (store.map _).get _ = _
    simp [List.get_eq_getElem, List.getElem_map]
  rw [hg]
  by_cases hc : (store.get ⟨i, h⟩).id = id ∧ (store.get ⟨i, h⟩).userId = userId
  · rw [if_pos hc]
    refine ⟨rfl, rfl, rfl, rfl, rfl, rfl, rfl, rfl, rfl, rfl, ?_, ?_⟩
    · intro hne; exact absurd hc.2 hne
    · intro hne; exact absurd hc.1 hne
  · rw [if_neg hc]
    exact ⟨rfl, rfl, rfl, rfl, rfl, rfl, rfl, rfl, rfl, rfl,
      fun _ => rfl, fun _ => rfl⟩

/-- Closed witness for `update_frame_property`: an update attempt on the
concrete listing by non-owner 99 leaves the row untouched. -/
theorem update_frame_property_witness :
    (updateListing [sampleListing] 1 99 { title := some "hacked" } "i10").1.get
      ⟨0, by decide⟩ = sampleListing := by
  have h := (update_frame_property [sampleListing] 1 99
    { title := some "hacked" } "i10").2 0 (by decide) (by decide)
  exact h.2.2.2.2.2.2.2.2.2.2.1 (by decide)

end Fleamarket
